import Mathlib

/-!
Verification of the pywen hook scripts (`pywen_userprompt.py` and
`pywen_stop.py`): a shallow embedding of the session-case registry, the
completion-signal emitter, the session/prompt extraction helpers, the
case-declaration pattern, and the two top-level invocations, together with
proofs and refutations of the frozen behavioural claims.

Modelling conventions:
* JSON values parsed from stdin are an inductive `JsonValue`; the outcome of
  the external `json.loads` is passed in as an `Except Unit JsonValue`.
* Filesystem effects are explicit: registry files are an association list,
  a single file read is a `FileRead`, and the emitter's fallible OS calls
  (`unlink`, `mkfifo`, non-blocking open/write, fallback append) are Boolean
  success flags in `EmitEnv` acting on an `EmitState`.
* Python exceptions that escape a function are an `Except PyErr` error;
  exceptions caught inside a function are folded into its result, exactly
  as the source's try/except blocks do.
-/

/-- Python values a hook can observe after `json.loads`: `null`, booleans,
numbers, strings, arrays and objects (association lists, first key wins,
matching `dict.get`). Numbers are modelled as integers; no claim depends on
fractional values. -/
inductive JsonValue where
  | null
  | bool (b : Bool)
  | num (n : Int)
  | str (s : String)
  | arr (elems : List JsonValue)
  | obj (fields : List (String × JsonValue))

/-- The only uncaught Python exception class the claims exercise:
`AttributeError`, raised by `x.get(...)` when `x` is not a dict. -/
inductive PyErr where
  | attributeError
deriving DecidableEq

/-- Python `dict.get` on the association-list representation of a JSON object. -/
def jlookup : List (String × JsonValue) → String → Option JsonValue
  | [], _ => none
  | (k, v) :: rest, key => if key = k then some v else jlookup rest key

/-- Python's Unicode whitespace predicate (`str.isspace` on a single
character; also the set stripped by `str.strip()` and matched by the regex
class backslash-s). -/
def pyIsSpace (c : Char) : Bool :=
  decide ((9 ≤ c.toNat ∧ c.toNat ≤ 13) ∨ c.toNat = 32 ∨
    (28 ≤ c.toNat ∧ c.toNat ≤ 31) ∨ c.toNat = 133 ∨ c.toNat = 160 ∨
    c.toNat = 5760 ∨ (8192 ≤ c.toNat ∧ c.toNat ≤ 8202) ∨ c.toNat = 8232 ∨
    c.toNat = 8233 ∨ c.toNat = 8239 ∨ c.toNat = 8287 ∨ c.toNat = 12288)

/-- The characters Python's `str.splitlines` treats as line boundaries. -/
def isPyLineBreak (c : Char) : Bool :=
  decide (c.toNat = 10 ∨ c.toNat = 11 ∨ c.toNat = 12 ∨ c.toNat = 13 ∨
    c.toNat = 28 ∨ c.toNat = 29 ∨ c.toNat = 30 ∨ c.toNat = 133 ∨
    c.toNat = 8232 ∨ c.toNat = 8233)

/-- Python `str.strip()` on the character list: drop whitespace from both ends. -/
def pyStripList (l : List Char) : List Char :=
  ((l.dropWhile pyIsSpace).reverse.dropWhile pyIsSpace).reverse

/-- Python `s.strip()`. -/
def pyStrip (s : String) : String := String.mk (pyStripList s.data)

/-- The characters before the first line boundary: for nonempty `s` this is
`s.splitlines()[0]`. -/
def firstLineList : List Char → List Char
  | [] => []
  | c :: cs => if isPyLineBreak c then [] else c :: firstLineList cs

/-- Python `s.splitlines()[0]` for the nonempty strings it is called on. -/
def strFirstLine (s : String) : String := String.mk (firstLineList s.data)

/-- Outcome of attempting to read one registry file
(`CASE_DIR/<session_id>.case`): the file is absent, reading raised, or it
yielded some decoded text. -/
inductive FileRead where
  | absent
  | readError
  | content (s : String)

/-- Function `read_case_id` from `pywen_stop.py`, applied to the outcome of the file
probe/read for the session's record: if the file exists and reading succeeds,
strip the text; when nonempty, return the first line re-stripped; in every
other case (absent file, raised error, blank content) return "UNKNOWN". -/
def read_case_id : FileRead → String
  | .content s =>
      if pyStrip s ≠ "" then pyStrip (strFirstLine (pyStrip s)) else "UNKNOWN"
  | _ => "UNKNOWN"

/-- The durable registry: session file name stem mapped to file content,
most recent write first (`Path.write_text` overwrites). -/
abbrev Registry := List (String × String)

/-- Content of the registry file for `sid`, newest write first. -/
def regGet : Registry → String → Option String
  | [], _ => none
  | (k, v) :: rest, key => if key = k then some v else regGet rest key

/-- Function `write_session_case` from `pywen_userprompt.py`: write `case_id` as the
sole content of the session's file; a failing write (`ok = false`) is
swallowed and leaves the registry unchanged. -/
def write_session_case (reg : Registry) (session_id case_id : String)
    (ok : Bool) : Registry :=
  if ok then (session_id, case_id) :: reg else reg

/-- The file-read outcome `read_case_id` sees for `sid` given the registry
contents: present files read back their stored content. -/
def fileOf (reg : Registry) (sid : String) : FileRead :=
  match regGet reg sid with
  | some content => .content content
  | none => .absent

/-- The candidate top-level keys, in source order, of `extract_session_id`. -/
def sessionKeys : List String := ["session_id", "sessionId", "sessionID", "sid"]

/-- Python `isinstance(v, str) and v`: the value is a nonempty string. -/
def isNonemptyStr : Option JsonValue → Option String
  | some (.str s) => if s = "" then none else some s
  | _ => none

/-- The `for k in (...)` loop of `extract_session_id`: first candidate key
whose value is a nonempty string. -/
def scanKeysObj (kvs : List (String × JsonValue)) : List String → Option String
  | [] => none
  | k :: ks =>
      match isNonemptyStr (jlookup kvs k) with
      | some s => some s
      | none => scanKeysObj kvs ks

/-- Body of `extract_session_id` once `data` is known to be a dict: the key
loop, then the nested `session.id`, then the pid-synthesized identifier. -/
def extractFromObj (kvs : List (String × JsonValue)) (pid : Nat) : String :=
  match scanKeysObj kvs sessionKeys with
  | some s => s
  | none =>
      match jlookup kvs "session" with
      | some (.obj skvs) =>
          match isNonemptyStr (jlookup skvs "id") with
          | some s => s
          | none => "pid_" ++ toString pid
      | _ => "pid_" ++ toString pid

/-- Function `extract_session_id` (identical in both scripts). Every branch begins
with `data.get(...)`, which raises `AttributeError` unless `data` is a dict,
so the function is split on dict-ness up front; on a dict no operation can
raise. -/
def extract_session_id (data : JsonValue) (pid : Nat) : Except PyErr String :=
  match data with
  | .obj kvs => .ok (extractFromObj kvs pid)
  | _ => .error .attributeError

/-- Tuple `PROMPT_KEYS_IN` from `pywen_userprompt.py`. -/
def promptKeys : List String := ["prompt", "user_prompt", "userPrompt"]

/-- The `for k in PROMPT_KEYS_IN` loop of `extract_prompt`: first candidate
key whose value is a string (`isinstance(v, str)`; the empty string counts). -/
def scanStrKeys (kvs : List (String × JsonValue)) : List String → Option String
  | [] => none
  | k :: ks =>
      match jlookup kvs k with
      | some (.str s) => some s
      | _ => scanStrKeys kvs ks

/-- Body of `extract_prompt` once `data` is known to be a dict: the key loop
at top level, then inside a dict-valued `input`, else the empty string. -/
def extractPromptObj (kvs : List (String × JsonValue)) : String :=
  match scanStrKeys kvs promptKeys with
  | some s => s
  | none =>
      match jlookup kvs "input" with
      | some (.obj ikvs) =>
          match scanStrKeys ikvs promptKeys with
          | some s => s
          | none => ""
      | _ => ""

/-- Function `extract_prompt` from `pywen_userprompt.py`; as with
`extract_session_id`, `data.get` raises `AttributeError` on a non-dict. -/
def extract_prompt (data : JsonValue) : Except PyErr String :=
  match data with
  | .obj kvs => .ok (extractPromptObj kvs)
  | _ => .error .attributeError

/-- A character admitted by the regex group (not whitespace, not a double
quote (code 34), not an apostrophe (code 39)). -/
def tokenChar (c : Char) : Bool :=
  !pyIsSpace c && !decide (c.toNat = 34) && !decide (c.toNat = 39)

/-- Case-insensitive removal of the pattern (first argument) from the front
of the subject, modelling IGNORECASE matching of the literal part of
`CASE_RE` by simple case folding. -/
def stripHeadCI : List Char → List Char → Option (List Char)
  | [], cs => some cs
  | _ :: _, [] => none
  | p :: ps, c :: cs => if c.toLower = p.toLower then stripHeadCI ps cs else none

/-- Case-insensitive equality of character lists (simple case folding). -/
def ciEqList : List Char → List Char → Bool
  | [], [] => true
  | a :: as, b :: bs => decide (a.toLower = b.toLower) && ciEqList as bs
  | _, _ => false

/-- Matching `CASE_RE.match(prompt)` for the anchored IGNORECASE pattern
`CASE_ID=` followed by one or more non-whitespace, non-quote characters
(the captured group) and then only trailing whitespace. Because the group's
character class excludes whitespace while the trailing part admits only
whitespace, greedy matching is exact: take the maximal run of group
characters after the keyword and require the remainder to be all
whitespace. Returns the captured group. -/
def caseMatch (s : String) : Option String :=
  match stripHeadCI "CASE_ID=".data s.data with
  | none => none
  | some rest =>
      if !(rest.takeWhile tokenChar).isEmpty
          && (rest.dropWhile tokenChar).all pyIsSpace then
        some (String.mk (rest.takeWhile tokenChar))
      else none

/-- Success flags for the OS calls `write_done` performs; each `false`
models that call raising `OSError` when reached. -/
structure EmitEnv where
  unlinkOk : Bool
  mkfifoOk : Bool
  fifoWriteOk : Bool
  fallbackOk : Bool
deriving DecidableEq

/-- Observable filesystem state `write_done` touches: whether something is
present at `FIFO_PATH`, whether it is a FIFO, and the lines of
`FALLBACK_LOG`. -/
structure EmitState where
  fifoPresent : Bool
  fifoIsFifo : Bool
  log : List String
deriving DecidableEq

/-- One fallback block of `write_done`: `open(FALLBACK_LOG, "a")` and append
one record; a raising append is swallowed and leaves the log unchanged. -/
def fallbackAppend (env : EmitEnv) (st : EmitState) (record : String) :
    EmitState :=
  if env.fallbackOk then { st with log := st.log ++ [record] } else st

/-- The first try block of `write_done`: ensure `FIFO_PATH` is a FIFO,
unlinking a wrong-kind object and calling `mkfifo`. Returns whether the
block completed without raising, and the filesystem state afterwards. -/
def channelCheck (env : EmitEnv) (st : EmitState) : Bool × EmitState :=
  if st.fifoPresent && st.fifoIsFifo then (true, st)
  else if st.fifoPresent && !env.unlinkOk then (false, st)
  else
    let st1 : EmitState := { st with fifoPresent := false, fifoIsFifo := false }
    if env.mkfifoOk then (true, { st1 with fifoPresent := true, fifoIsFifo := true })
    else (false, st1)

/-- Function `write_done` from `pywen_stop.py`: ensure the FIFO exists (on failure,
best-effort fallback append and return "file"); otherwise write the record
through a non-blocking write-only descriptor and return "fifo"; on `OSError`
fall back to the append and return "file" whether or not the append itself
succeeded. -/
def write_done (env : EmitEnv) (st : EmitState) (case_id : String) :
    String × EmitState :=
  let record := case_id ++ " DONE\n"
  let c := channelCheck env st
  if !c.1 then ("file", fallbackAppend env c.2 record)
  else if env.fifoWriteOk then ("fifo", c.2)
  else ("file", fallbackAppend env c.2 record)

/-- Function `parse_stdin_json` from `pywen_stop.py`: empty stdin short-circuits to
an empty dict; otherwise the `json.loads` outcome, with a raising parse
caught and replaced by an empty dict. A successful parse is returned as-is
even when it is not a dict. -/
def parse_stdin_json_stop (rawEmpty : Bool) (parsed : Except Unit JsonValue) :
    JsonValue :=
  if rawEmpty then .obj []
  else
    match parsed with
    | .ok v => v
    | .error _ => .obj []

/-- Function `parse_stdin_json` from `pywen_userprompt.py`: the `json.loads` outcome,
with a raising parse (which includes empty stdin) caught and replaced by an
empty dict; a successful non-dict parse is returned as-is. -/
def parse_stdin_json_up (parsed : Except Unit JsonValue) : JsonValue :=
  match parsed with
  | .ok v => v
  | .error _ => .obj []

/-- Function `main` of `pywen_userprompt.py`. Result: the JSON value printed to
stdout, the registry afterwards, and the process exit code; `.error` is an
uncaught exception escaping `main` (no JSON printed, nonzero process exit).
`CASE_RE.match(prompt or "")` equals `CASE_RE.match(prompt)` because the
only changed input, the empty prompt, matches in neither form. -/
def main_userprompt (parsed : Except Unit JsonValue) (reg : Registry)
    (writeOk : Bool) (pid : Nat) : Except PyErr (JsonValue × Registry × Nat) :=
  let data := parse_stdin_json_up parsed
  match extract_prompt data with
  | .error e => .error e
  | .ok prompt =>
      match extract_session_id data pid with
      | .error e => .error e
      | .ok sid =>
          match caseMatch prompt with
          | none => .ok (.obj [], reg, 0)
          | some cid =>
              .ok (.obj [("decision", .str "block"),
                         ("reason", .str ("已记录 CASE_ID=" ++ cid ++
                           "，本条提示不会进入上下文。"))],
                   write_session_case reg sid cid writeOk, 0)

/-- Function `main` of `pywen_stop.py`: resolve the session, read the case id from
the registry file (`files` gives the read outcome per session id), emit the
completion record, and print the system message. `.error` is an uncaught
exception escaping `main`. -/
def main_stop (rawEmpty : Bool) (parsed : Except Unit JsonValue)
    (files : String → FileRead) (env : EmitEnv) (st : EmitState) (pid : Nat) :
    Except PyErr (JsonValue × EmitState × Nat) :=
  let data := parse_stdin_json_stop rawEmpty parsed
  match extract_session_id data pid with
  | .error e => .error e
  | .ok sid =>
      let case_id := read_case_id (files sid)
      let r := write_done env st case_id
      .ok (.obj [("systemMessage",
             .str ("✅ [Stop] Recorded DONE for CASE_ID=" ++ case_id ++
               " (via " ++ r.1 ++ ")."))],
           r.2, 0)

/-- The spec's NOT_FOUND condition for a registry read: record absent,
reading raised, or content blank after stripping. -/
def notFoundCondition : FileRead → Bool
  | .absent => true
  | .readError => true
  | .content s => pyStrip s == ""

/-- Session-identifier resolution as the spec words it: first candidate key
in order whose value is a nonempty string, then a nested `session.id`, else
the pid-synthesized identifier. Stated for comparison with
`extract_session_id`. -/
def specResolve (kvs : List (String × JsonValue)) (pid : Nat) : String :=
  match sessionKeys.findSome? (fun k => isNonemptyStr (jlookup kvs k)) with
  | some s => s
  | none =>
      match jlookup kvs "session" with
      | some (.obj skvs) =>
          match isNonemptyStr (jlookup skvs "id") with
          | some s => s
          | none => "pid_" ++ toString pid
      | _ => "pid_" ++ toString pid

theorem dropWhile_eq_self_of_all {p : Char → Bool} :
    ∀ l : List Char, (∀ c ∈ l, p c = false) → l.dropWhile p = l
  | [], _ => rfl
  | c :: cs, h => by
      simp [List.dropWhile_cons, h c (List.mem_cons_self c cs)]

theorem pyStripList_eq_self {l : List Char} (h : ∀ c ∈ l, pyIsSpace c = false) :
    pyStripList l = l := by
  unfold pyStripList
  rw [dropWhile_eq_self_of_all l h,
    dropWhile_eq_self_of_all l.reverse (fun c hc => h c (List.mem_reverse.mp hc)),
    List.reverse_reverse]

theorem pyStrip_eq_self {s : String} (h : ∀ c ∈ s.data, pyIsSpace c = false) :
    pyStrip s = s := by
  unfold pyStrip
  rw [pyStripList_eq_self h]

theorem lineBreak_isSpace {c : Char} (h : isPyLineBreak c = true) :
    pyIsSpace c = true := by
  simp only [isPyLineBreak, decide_eq_true_eq] at h
  simp only [pyIsSpace, decide_eq_true_eq]
  omega

theorem firstLineList_eq_self :
    ∀ l : List Char, (∀ c ∈ l, pyIsSpace c = false) → firstLineList l = l
  | [], _ => rfl
  | c :: cs, h => by
      have hc : isPyLineBreak c = false := by
        cases hb : isPyLineBreak c
        · rfl
        · exact absurd (lineBreak_isSpace hb)
            (by simp [h c (List.mem_cons_self c cs)])
      simp [firstLineList, hc,
        firstLineList_eq_self cs (fun x hx => h x (List.mem_cons_of_mem c hx))]

theorem strFirstLine_eq_self {s : String} (h : ∀ c ∈ s.data, pyIsSpace c = false) :
    strFirstLine s = s := by
  unfold strFirstLine
  rw [firstLineList_eq_self s.data h]

/-- C1: for every case id and every combination of filesystem state and
OS-call outcomes (channel missing, wrong kind, creation failing, the
non-blocking write failing, the fallback append failing), `write_done`
returns one of the two indicator strings "fifo" and "file"; being a total
function of those outcomes, it raises nothing past its boundary. -/
theorem C1_write_done_indicator (env : EmitEnv) (st : EmitState) (case_id : String) :
    (write_done env st case_id).1 = "fifo" ∨ (write_done env st case_id).1 = "file" := by
  unfold write_done
  cases h1 : (channelCheck env st).1 <;> cases h2 : env.fifoWriteOk <;> simp [h1, h2]

/-- C2 counterexample: the empty case id is free of whitespace and quotes,
the write and the read both succeed, yet `put` then `get` returns the
NOT_FOUND sentinel rather than the empty case id. -/
theorem C2_put_get_counterexample :
    read_case_id (fileOf (write_session_case [] "S1" "" true) "S1") = "UNKNOWN" ∧
      ("UNKNOWN" : String) ≠ "" := ⟨rfl, by decide⟩

/-- C2 amended: for every session id and every nonempty case id free of
whitespace and quote characters, a successful `put` followed by a successful
`get` returns the case id exactly. -/
theorem C2_put_get_roundtrip (reg : Registry) (sid cid : String)
    (hne : cid ≠ "")
    (hch : ∀ c ∈ cid.data, pyIsSpace c = false ∧ c.toNat ≠ 34 ∧ c.toNat ≠ 39) :
    read_case_id (fileOf (write_session_case reg sid cid true) sid) = cid := by
  have hsp : ∀ c ∈ cid.data, pyIsSpace c = false := fun c hc => (hch c hc).1
  have h1 : fileOf (write_session_case reg sid cid true) sid = .content cid := by
    simp [write_session_case, fileOf, regGet]
  rw [h1]
  have h2 : pyStrip cid = cid := pyStrip_eq_self hsp
  have h3 : strFirstLine cid = cid := strFirstLine_eq_self hsp
  simp [read_case_id, h2, h3, hne]

theorem C2_put_get_witness :
    ("abc123" : String) ≠ "" ∧
      (∀ c ∈ ("abc123" : String).data,
        pyIsSpace c = false ∧ c.toNat ≠ 34 ∧ c.toNat ≠ 39) ∧
      read_case_id (fileOf (write_session_case [] "S1" "abc123" true) "S1") = "abc123" :=
  ⟨by decide, by decide, C2_put_get_roundtrip [] "S1" "abc123" (by decide) (by decide)⟩

/-- C7 counterexample: a record whose stored content is the literal string
"UNKNOWN" exists, reads without error, and is nonempty after stripping, yet
`read_case_id` returns "UNKNOWN" — so the sentinel is not returned *exactly*
in the claimed cases. -/
theorem C7_read_case_id_counterexample :
    read_case_id (.content "UNKNOWN") = "UNKNOWN" ∧
      notFoundCondition (.content "UNKNOWN") = false := ⟨rfl, rfl⟩

/-- C7 amended: `read_case_id` returns the sentinel "UNKNOWN" exactly when
the record is absent, reading raised, the content strips to empty, or the
stored first line itself strips to the literal "UNKNOWN"; whenever the
content strips to a nonempty text, the result is the first line of that
text, re-stripped. -/
theorem C7_read_case_id_amended (r : FileRead) :
    (read_case_id r = "UNKNOWN" ↔
      (notFoundCondition r = true ∨
        ∃ s, r = .content s ∧ pyStrip s ≠ "" ∧
          pyStrip (strFirstLine (pyStrip s)) = "UNKNOWN")) ∧
    (∀ s, pyStrip s ≠ "" →
      read_case_id (.content s) = pyStrip (strFirstLine (pyStrip s))) := by
  constructor
  · cases r with
    | absent => simp [read_case_id, notFoundCondition]
    | readError => simp [read_case_id, notFoundCondition]
    | content s =>
        by_cases hs : pyStrip s = ""
        · simp [read_case_id, notFoundCondition, hs]
        · simp [read_case_id, notFoundCondition, hs]
  · intro s hs
    simp [read_case_id, hs]

theorem C7_read_case_id_witness :
    pyStrip " ab\ncd " ≠ "" ∧
      read_case_id (.content " ab\ncd ") = pyStrip (strFirstLine (pyStrip " ab\ncd ")) :=
  ⟨by decide, (C7_read_case_id_amended (.content " ab\ncd ")).2 " ab\ncd " (by decide)⟩

theorem channelCheck_log_eq (env : EmitEnv) (st : EmitState) :
    (channelCheck env st).2.log = st.log := by
  unfold channelCheck
  split
  · rfl
  · split
    · rfl
    · split <;> rfl

/-- C4 counterexample: with the non-blocking write rejected, the run whose
fallback append fails returns the very same indicator "file" as the run
whose fallback append succeeds — the failed delivery is not reported
distinctly from a successful fallback delivery. -/
theorem C4_delivery_failed_counterexample :
    (write_done ⟨true, true, false, false⟩ ⟨true, true, []⟩ "c").1 = "file" ∧
      (write_done ⟨true, true, false, false⟩ ⟨true, true, []⟩ "c").1 =
        (write_done ⟨true, true, false, true⟩ ⟨true, true, []⟩ "c").1 := by
  decide

/-- C4 amended: when the preferred-channel write is rejected and the
fallback append itself fails, `write_done` still returns the indicator
"file" — indistinguishable from a successful fallback delivery — appends
nothing to the durable log, and raises nothing past the Emitter boundary. -/
theorem C4_delivery_failed_amended (env : EmitEnv) (st : EmitState)
    (case_id : String) (hw : env.fifoWriteOk = false) (hf : env.fallbackOk = false) :
    (write_done env st case_id).1 = "file" ∧
      (write_done env st case_id).2.log = st.log := by
  unfold write_done fallbackAppend
  cases h1 : (channelCheck env st).1 <;>
    simp [h1, hw, hf, channelCheck_log_eq env st]

theorem C4_delivery_failed_witness :
    (⟨true, true, false, false⟩ : EmitEnv).fifoWriteOk = false ∧
      (⟨true, true, false, false⟩ : EmitEnv).fallbackOk = false ∧
      (write_done ⟨true, true, false, false⟩ ⟨false, false, []⟩ "x").1 = "file" ∧
      (write_done ⟨true, true, false, false⟩ ⟨false, false, []⟩ "x").2.log = [] :=
  ⟨rfl, rfl,
    (C4_delivery_failed_amended ⟨true, true, false, false⟩ ⟨false, false, []⟩ "x" rfl rfl).1,
    (C4_delivery_failed_amended ⟨true, true, false, false⟩ ⟨false, false, []⟩ "x" rfl rfl).2⟩

/-- C6 counterexample: a run that returns "file" (write rejected, fallback
append failing) after which the fallback log did not gain the record line. -/
theorem C6_file_log_counterexample :
    (write_done ⟨true, true, false, false⟩ ⟨true, true, []⟩ "c").1 = "file" ∧
      ¬((write_done ⟨true, true, false, false⟩ ⟨true, true, []⟩ "c").2.log =
        [] ++ ["c DONE\n"]) := by
  decide

/-- C6 amended: whenever `write_done` returns "file", the fallback log gains
exactly one new line `case_id ++ " DONE\n"` appended at the end and nothing
else changes in it, provided the fallback append succeeds; when the append
fails the log is unchanged. -/
theorem C6_file_log_amended (env : EmitEnv) (st : EmitState) (case_id : String)
    (h : (write_done env st case_id).1 = "file") :
    (write_done env st case_id).2.log =
      if env.fallbackOk then st.log ++ [case_id ++ " DONE\n"] else st.log := by
  unfold write_done fallbackAppend at *
  cases h1 : (channelCheck env st).1 <;>
    cases h2 : env.fifoWriteOk <;>
    cases h3 : env.fallbackOk <;>
    simp [h1, h2, h3, channelCheck_log_eq env st] at h ⊢

theorem C6_file_log_witness :
    (write_done ⟨true, true, false, true⟩ ⟨true, true, ["old"]⟩ "k").1 = "file" ∧
      (write_done ⟨true, true, false, true⟩ ⟨true, true, ["old"]⟩ "k").2.log =
        if (⟨true, true, false, true⟩ : EmitEnv).fallbackOk then
          ["old"] ++ ["k DONE\n"] else ["old"] :=
  ⟨by decide, C6_file_log_amended ⟨true, true, false, true⟩ ⟨true, true, ["old"]⟩ "k" (by decide)⟩

theorem isNonemptyStr_ne_empty {v : Option JsonValue} {s : String}
    (h : isNonemptyStr v = some s) : s ≠ "" := by
  unfold isNonemptyStr at h
  split at h
  · split at h
    · exact absurd h (by simp)
    · cases h
      assumption
  · exact absurd h (by simp)

theorem scanKeysObj_eq_findSome (kvs : List (String × JsonValue)) :
    ∀ ks : List String,
      scanKeysObj kvs ks = ks.findSome? (fun k => isNonemptyStr (jlookup kvs k))
  | [] => rfl
  | k :: ks => by
      rw [List.findSome?_cons]
      unfold scanKeysObj
      cases h : isNonemptyStr (jlookup kvs k) <;>
        simp [h, scanKeysObj_eq_findSome kvs ks]

theorem pid_str_ne_empty (pid : Nat) : ("pid_" ++ toString pid : String) ≠ "" := by
  intro h
  have hd := congrArg String.data h
  rw [String.data_append] at hd
  exact absurd hd (by simp)

theorem specResolve_ne_empty (kvs : List (String × JsonValue)) (pid : Nat) :
    specResolve kvs pid ≠ "" := by
  unfold specResolve
  split
  · next s hfind =>
      obtain ⟨k, _, hk⟩ := List.exists_of_findSome?_eq_some hfind
      exact isNonemptyStr_ne_empty hk
  · split
    · split
      · next s hk => exact isNonemptyStr_ne_empty hk
      · exact pid_str_ne_empty pid
    · exact pid_str_ne_empty pid

/-- C8: on every inbound event object, the resolved session identifier is
exactly what the spec prescribes — the first of `session_id`, `sessionId`,
`sessionID`, `sid` whose value is a nonempty string, then a nested
`session.id`, else `pid_<pid>` — and it is always a nonempty string. -/
theorem C8_session_resolution (kvs : List (String × JsonValue)) (pid : Nat) :
    extract_session_id (.obj kvs) pid = .ok (specResolve kvs pid) ∧
      specResolve kvs pid ≠ "" := by
  refine ⟨?_, specResolve_ne_empty kvs pid⟩
  show Except.ok (extractFromObj kvs pid) = _
  unfold extractFromObj specResolve
  rw [scanKeysObj_eq_findSome kvs sessionKeys]

/-- C10: session resolution skips a candidate key whose value is not a
nonempty string (replacing such a value by `null` changes nothing), skips a
non-dict value under `session` the same way, and never fails on an event
object. -/
theorem C10_skip_invalid_candidates (kvs : List (String × JsonValue)) (pid : Nat) :
    (∀ k v, k ∈ sessionKeys → isNonemptyStr (some v) = none →
        extract_session_id (.obj ((k, v) :: kvs)) pid =
          extract_session_id (.obj ((k, JsonValue.null) :: kvs)) pid) ∧
    (∀ v, (∀ l, v ≠ JsonValue.obj l) →
        extract_session_id (.obj (("session", v) :: kvs)) pid =
          extract_session_id (.obj (("session", JsonValue.null) :: kvs)) pid) ∧
    (∃ s, extract_session_id (.obj kvs) pid = .ok s) := by
  refine ⟨?_, ?_, ⟨extractFromObj kvs pid, rfl⟩⟩
  · intro k v hk hv
    have hnull : isNonemptyStr (some JsonValue.null) = none := rfl
    fin_cases hk <;>
      simp [extract_session_id, extractFromObj, scanKeysObj, sessionKeys,
        jlookup, hv, hnull]
  · intro v hv
    have hscan : ∀ ks : List String, "session" ∉ ks →
        scanKeysObj (("session", v) :: kvs) ks =
          scanKeysObj (("session", JsonValue.null) :: kvs) ks := by
      intro ks hks
      induction ks with
      | nil => rfl
      | cons k ks ih =>
          have hk : k ≠ "session" := fun h => hks (h ▸ List.mem_cons_self k ks)
          have hk' : ¬(k = "session") := hk
          unfold scanKeysObj
          rw [show jlookup (("session", v) :: kvs) k = jlookup kvs k by
                simp [jlookup, hk'],
              show jlookup (("session", JsonValue.null) :: kvs) k = jlookup kvs k by
                simp [jlookup, hk']]
          cases isNonemptyStr (jlookup kvs k) <;>
            simp [ih (fun h => hks (List.mem_cons_of_mem k h))]
    show Except.ok _ = Except.ok _
    unfold extractFromObj
    rw [hscan sessionKeys (by decide)]
    cases hres : scanKeysObj (("session", JsonValue.null) :: kvs) sessionKeys
    · rw [show jlookup (("session", v) :: kvs) "session" = some v by
            simp [jlookup],
          show jlookup (("session", JsonValue.null) :: kvs) "session" =
              some JsonValue.null by simp [jlookup]]
      cases v with
      | obj l => exact absurd rfl (hv l)
      | null => rfl
      | bool b => rfl
      | num n => rfl
      | str s => rfl
      | arr es => rfl
    · rfl

theorem C10_skip_invalid_candidates_witness :
    "session_id" ∈ sessionKeys ∧
      isNonemptyStr (some (JsonValue.num 3)) = none ∧
      extract_session_id (.obj [("session_id", JsonValue.num 3),
        ("sid", JsonValue.str "S7")]) 9 =
        extract_session_id (.obj [("session_id", JsonValue.null),
          ("sid", JsonValue.str "S7")]) 9 ∧
      (∀ l, JsonValue.arr [] ≠ JsonValue.obj l) ∧
      extract_session_id (.obj [("session", JsonValue.arr [])]) 9 =
        extract_session_id (.obj [("session", JsonValue.null)]) 9 :=
  ⟨by decide, rfl,
    (C10_skip_invalid_candidates [("sid", JsonValue.str "S7")] 9).1 "session_id"
      (JsonValue.num 3) (by decide) rfl,
    fun l h => JsonValue.noConfusion h,
    (C10_skip_invalid_candidates [] 9).2.1 (JsonValue.arr [])
      (fun l h => JsonValue.noConfusion h)⟩

theorem stripHeadCI_append :
    ∀ (p pre r : List Char), ciEqList pre p = true →
      stripHeadCI p (pre ++ r) = some r
  | [], [], _, _ => rfl
  | [], _ :: _, _, h => by simp [ciEqList] at h
  | _ :: _, [], _, h => by simp [ciEqList] at h
  | p :: ps, a :: as, r, h => by
      unfold ciEqList at h
      rw [Bool.and_eq_true, decide_eq_true_eq] at h
      unfold stripHeadCI
      simp [List.cons_append, h.1, stripHeadCI_append ps as r h.2]

theorem tokenChar_false_of_space {c : Char} (h : pyIsSpace c = true) :
    tokenChar c = false := by
  simp [tokenChar, h]

theorem takeWhile_token_append (tok ws : List Char)
    (ht : ∀ c ∈ tok, tokenChar c = true) (hw : ∀ c ∈ ws, pyIsSpace c = true) :
    (tok ++ ws).takeWhile tokenChar = tok ∧
      (tok ++ ws).dropWhile tokenChar = ws := by
  constructor
  · rw [List.takeWhile_append_of_pos ht]
    cases ws with
    | nil => simp
    | cons c cs =>
        simp [List.takeWhile_cons,
          tokenChar_false_of_space (hw c (List.mem_cons_self c cs))]
  · rw [List.dropWhile_append_of_pos ht]
    cases ws with
    | nil => simp
    | cons c cs =>
        simp [List.dropWhile_cons,
          tokenChar_false_of_space (hw c (List.mem_cons_self c cs))]

/-- C9: every prompt made of the keyword `CASE_ID=` in any letter case, a
token of one or more non-whitespace non-quote characters, and trailing
whitespace is accepted as a case declaration, and the value handed to the
registry write is the token exactly, trailing whitespace excluded. -/
theorem C9_case_declaration (pre tok ws : String)
    (hpre : ciEqList pre.data "CASE_ID=".data = true)
    (hne : tok.data ≠ [])
    (htok : ∀ c ∈ tok.data, pyIsSpace c = false ∧ c.toNat ≠ 34 ∧ c.toNat ≠ 39)
    (hws : ∀ c ∈ ws.data, pyIsSpace c = true) :
    caseMatch (pre ++ tok ++ ws) = some tok ∧
      ∀ reg pid, main_userprompt
          (.ok (.obj [("session_id", .str "S1"),
            ("prompt", .str (pre ++ tok ++ ws))])) reg true pid =
        .ok (.obj [("decision", .str "block"),
               ("reason", .str ("已记录 CASE_ID=" ++ tok ++
                 "，本条提示不会进入上下文。"))],
             ("S1", tok) :: reg, 0) := by
  have htc : ∀ c ∈ tok.data, tokenChar c = true := by
    intro c hc
    obtain ⟨h1, h2, h3⟩ := htok c hc
    simp [tokenChar, h1, h2, h3]
  obtain ⟨htake, hdrop⟩ := takeWhile_token_append tok.data ws.data htc hws
  have hmatch : caseMatch (pre ++ tok ++ ws) = some tok := by
    unfold caseMatch
    rw [String.data_append, String.data_append, List.append_assoc,
      stripHeadCI_append "CASE_ID=".data pre.data (tok.data ++ ws.data) hpre]
    simp only [htake, hdrop]
    simp [List.isEmpty_iff, hne, List.all_eq_true.mpr hws]
  refine ⟨hmatch, ?_⟩
  intro reg pid
  simp [main_userprompt, parse_stdin_json_up, extract_prompt, extractPromptObj,
    scanStrKeys, promptKeys, jlookup, extract_session_id, extractFromObj,
    scanKeysObj, sessionKeys, isNonemptyStr, hmatch, write_session_case]

theorem C9_case_declaration_witness :
    ciEqList ("Case_Id=" : String).data ("CASE_ID=" : String).data = true ∧
      ("T1" : String).data ≠ [] ∧
      (∀ c ∈ ("T1" : String).data,
        pyIsSpace c = false ∧ c.toNat ≠ 34 ∧ c.toNat ≠ 39) ∧
      (∀ c ∈ ("\n" : String).data, pyIsSpace c = true) ∧
      caseMatch ("Case_Id=" ++ "T1" ++ "\n") = some "T1" :=
  ⟨by decide, by decide, by decide, by decide,
    (C9_case_declaration "Case_Id=" "T1" "\n" (by decide) (by decide)
      (by decide) (by decide)).1⟩

/-- C5: a prompt hook invocation whose prompt is exactly "CASE_ID=abc123"
writes the registry record of the resolved session with content "abc123"
and prints the decision-block event; a prompt of "hello" leaves the registry
untouched and prints the empty object. -/
theorem C5_prompt_hook_behavior (reg : Registry) (pid : Nat) :
    main_userprompt (.ok (.obj [("session_id", .str "S1"),
        ("prompt", .str "CASE_ID=abc123")])) reg true pid =
      .ok (.obj [("decision", .str "block"),
             ("reason", .str "已记录 CASE_ID=abc123，本条提示不会进入上下文。")],
           ("S1", "abc123") :: reg, 0) ∧
      regGet (("S1", "abc123") :: reg) "S1" = some "abc123" ∧
      main_userprompt (.ok (.obj [("session_id", .str "S1"),
          ("prompt", .str "hello")])) reg true pid =
        .ok (.obj [], reg, 0) := by
  refine ⟨rfl, ?_, rfl⟩
  simp [regGet]

/-- C3: on stdin that is valid JSON but not an object (here the array `[1]`
modelled by its parse result), both top-level invocations raise an uncaught
`AttributeError` from `data.get` instead of printing an event and exiting 0;
on unparseable stdin both behave as claimed. The type annotation of
`parse_stdin_json` promises a dict, so the escaped exception is a slip. -/
theorem C3_nonobject_stdin_bug :
    main_stop false (.ok (.arr [.num 1])) (fun _ => .absent)
        ⟨true, true, true, true⟩ ⟨true, true, []⟩ 1 = .error .attributeError ∧
      main_userprompt (.ok (.arr [.num 1])) [] true 1 = .error .attributeError ∧
      main_stop false (.error ()) (fun _ => .absent)
          ⟨true, true, true, true⟩ ⟨true, true, []⟩ 7 =
        .ok (.obj [("systemMessage",
               .str "✅ [Stop] Recorded DONE for CASE_ID=UNKNOWN (via fifo).")],
             ⟨true, true, []⟩, 0) ∧
      main_userprompt (.error ()) [] true 1 = .ok (.obj [], [], 0) :=
  ⟨rfl, rfl, rfl, rfl⟩
